import Mathlib

/-!
Shallow embedding of the ardurain-backend classification-and-derivation core:
trait extraction and primary-category scoring (src/services/wikidata_service.py)
and range derivation (src/services/moisture_service.py), with theorems settling
the specification claims about them.
-/

set_option maxRecDepth 100000

namespace ArduRain

/-! ## Basic helpers (moisture_service.py) -/

/-- `clamp_int` from moisture_service.py: `max(lo, min(hi, x))`. -/
def clamp_int (x lo hi : Int) : Int := max lo (min hi x)

/-- Python `int(round(s / 2))` for an integer `s`.  Python 3 `round` uses
round-half-to-even (banker's rounding); `(a + b) / 2` is exact in floating
point for the magnitudes occurring here, so the composite is exactly
round-half-to-even of `s / 2`. -/
def pyRound2 (s : Int) : Int :=
  if s % 2 = 0 then s / 2
  else if ((s - 1) / 2) % 2 = 0 then (s - 1) / 2
  else (s - 1) / 2 + 1

/-- `midpoint` from moisture_service.py: `int(round((a + b) / 2))`. -/
def midpoint (a b : Int) : Int := pyRound2 (a + b)

/-! ## Substring matching

The Python code tests `w in text` (substring containment).  We model strings
via their character lists with an executable containment check. -/

/-- Bool-valued list-prefix test (models the prefix step of substring search). -/
def isPrefixB : List Char → List Char → Bool
  | [], _ => true
  | _ :: _, [] => false
  | a :: ps, b :: ts => a == b && isPrefixB ps ts

/-- Bool-valued contiguous-sublist test. -/
def isInfixB (p : List Char) : List Char → Bool
  | [] => p.isEmpty
  | b :: ts => isPrefixB p (b :: ts) || isInfixB p ts

/-- Python `pat in text` (substring containment). -/
def containsStr (text pat : String) : Bool := isInfixB pat.data text.data

/-- `_has_any` from wikidata_service.py: `any(w in text for w in words)`. -/
def hasAny (text : String) (ws : List String) : Bool :=
  ws.any (fun w => containsStr text w)

theorem isPrefixB_iff (p : List Char) :
    ∀ t : List Char, isPrefixB p t = true ↔ ∃ s, t = p ++ s := by
  induction p with
  | nil =>
    intro t
    simp [isPrefixB]
  | cons a ps ih =>
    intro t
    cases t with
    | nil =>
      simp [isPrefixB]
    | cons b ts =>
      simp only [isPrefixB, Bool.and_eq_true, beq_iff_eq, ih ts]
      constructor
      · rintro ⟨rfl, s, rfl⟩
        exact ⟨s, rfl⟩
      · rintro ⟨s, hs⟩
        injection hs with h1 h2
        exact ⟨h1.symm, s, h2⟩

theorem isInfixB_iff (p : List Char) :
    ∀ t : List Char, isInfixB p t = true ↔ ∃ s₁ s₂, t = s₁ ++ p ++ s₂ := by
  intro t
  induction t with
  | nil =>
    cases p with
    | nil => simp [isInfixB]
    | cons a ps =>
      simp [isInfixB, List.isEmpty]
  | cons b ts ih =>
    simp only [isInfixB, Bool.or_eq_true, isPrefixB_iff, ih]
    constructor
    · rintro (⟨s, hs⟩ | ⟨s₁, s₂, hs⟩)
      · exact ⟨[], s, by simp [hs]⟩
      · exact ⟨b :: s₁, s₂, by simp [hs]⟩
    · rintro ⟨s₁, s₂, hs⟩
      cases s₁ with
      | nil =>
        exact Or.inl ⟨s₂, by simpa using hs⟩
      | cons c cs =>
        injection hs with h1 h2
        exact Or.inr ⟨cs, s₂, by simpa using h2⟩

theorem isInfixB_trans {p m t : List Char}
    (h₁ : isInfixB p m = true) (h₂ : isInfixB m t = true) :
    isInfixB p t = true := by
  rw [isInfixB_iff] at h₁ h₂ ⊢
  obtain ⟨a₁, a₂, rfl⟩ := h₁
  obtain ⟨b₁, b₂, rfl⟩ := h₂
  exact ⟨b₁ ++ a₁, a₂ ++ b₂, by simp⟩

/-! ## Base tables and trait modifiers (moisture_service.py)

Python dicts of tuples become association lists; `dict.get(k, d)` becomes
`lookup2`.  Entries are kept in the source's order. -/

/-- `dict.get(key, default)` for an association list of `(min, max)` bands. -/
def lookup2 (tbl : List (String × Int × Int)) (k : String) (dflt : Int × Int) :
    Int × Int :=
  match tbl.lookup k with
  | some v => v
  | none => dflt

/-- `PRIMARY_MOISTURE_BASE` from moisture_service.py. -/
def PRIMARY_MOISTURE_BASE : List (String × Int × Int) :=
  [("desert", 10, 25),
   ("mediterranean", 20, 40),
   ("temperate_cold", 25, 45),
   ("temperate", 25, 45),
   ("grassland", 25, 45),
   ("savanna", 25, 45),
   ("houseplant", 35, 55),
   ("subtropical", 40, 65),
   ("tropical", 45, 70),
   ("rainforest", 60, 85),
   ("wetland", 75, 92),
   ("bog", 80, 95),
   ("aquatic", 85, 98),
   ("coastal", 35, 60),
   ("alpine", 30, 55),
   ("arctic", 25, 50),
   ("fern", 60, 85),
   ("boreal", 25, 45)]

/-- `DEFAULT_PRIMARY` from moisture_service.py. -/
def DEFAULT_PRIMARY : String := "houseplant"

/-- `DEFAULT_RANGE = PRIMARY_MOISTURE_BASE[DEFAULT_PRIMARY]`. -/
def DEFAULT_RANGE : Int × Int := lookup2 PRIMARY_MOISTURE_BASE DEFAULT_PRIMARY (0, 0)

/-- `TRAIT_MODIFIERS` from moisture_service.py: trait → (min, max, target) deltas. -/
def TRAIT_MODIFIERS : List (String × Int × Int × Int) :=
  [("cactus", -5, -5, -6),
   ("succulent", -4, -4, -5),
   ("xerophyte", -4, -4, -5),
   ("drought_tolerant", -3, -3, -3),
   ("hydrophyte", 6, 6, 6),
   ("wetland_plant", 5, 5, 5),
   ("bog_plant", 5, 6, 6),
   ("epiphyte", 2, 2, 2),
   ("orchid", 2, 2, 2),
   ("carnivorous", 6, 6, 6)]

/-- `PRIMARY_TEMP_BASE_C` from moisture_service.py. -/
def PRIMARY_TEMP_BASE_C : List (String × Int × Int) :=
  [("arctic", -5, 12),
   ("alpine", 0, 18),
   ("temperate_cold", 5, 20),
   ("boreal", 5, 20),
   ("temperate", 10, 28),
   ("mediterranean", 12, 30),
   ("grassland", 10, 30),
   ("savanna", 16, 35),
   ("desert", 18, 40),
   ("houseplant", 18, 28),
   ("subtropical", 18, 32),
   ("tropical", 20, 34),
   ("rainforest", 22, 35),
   ("wetland", 15, 30),
   ("bog", 10, 25),
   ("aquatic", 15, 30),
   ("coastal", 12, 28),
   ("fern", 18, 28)]

/-- `PRIMARY_HUM_BASE` from moisture_service.py. -/
def PRIMARY_HUM_BASE : List (String × Int × Int) :=
  [("arctic", 20, 50),
   ("alpine", 25, 55),
   ("temperate_cold", 30, 60),
   ("boreal", 30, 60),
   ("temperate", 35, 65),
   ("mediterranean", 30, 55),
   ("grassland", 30, 60),
   ("savanna", 25, 55),
   ("desert", 15, 40),
   ("houseplant", 40, 70),
   ("subtropical", 45, 75),
   ("tropical", 55, 85),
   ("rainforest", 70, 95),
   ("wetland", 60, 90),
   ("bog", 70, 95),
   ("aquatic", 60, 90),
   ("coastal", 45, 80),
   ("fern", 60, 90)]

/-- `CLIMATE_TRAIT_MODS` from moisture_service.py:
trait → (tmin, tmax, hmin, hmax) deltas. -/
def CLIMATE_TRAIT_MODS : List (String × Int × Int × Int × Int) :=
  [("cactus", 2, 4, -10, -10),
   ("succulent", 1, 3, -8, -8),
   ("xerophyte", 1, 3, -8, -8),
   ("drought_tolerant", 0, 2, -5, -5),
   ("wetland_plant", 0, 0, 5, 8),
   ("bog_plant", 0, 0, 8, 10),
   ("hydrophyte", 0, 0, 8, 10),
   ("epiphyte", 0, 0, 8, 10),
   ("orchid", 0, 0, 8, 10),
   ("carnivorous", 0, 0, 10, 10),
   ("coastal", 0, 0, 3, 5),
   ("arctic", -2, -2, 0, 0),
   ("alpine", -1, -1, 0, 0),
   ("cold_hardy", -1, -1, 0, 0),
   ("boreal", -1, -1, 0, 0)]

/-! ## Range derivation (moisture_service.py) -/

/-- Result of `compute_moisture`, the tuple `(mn, mx, tg, applied)`. -/
structure MoistureOut where
  mn : Int
  mx : Int
  target : Int
  applied : List String
deriving Repr, DecidableEq

/-- The accumulation phase of `compute_moisture`: base band and base-midpoint
target, then the additive per-trait deltas applied in trait-list order,
before any clamping.  Returns `(mn, mx, tg, applied)`. -/
def moistureAccum (primary : String) (traits : List String) :
    Int × Int × Int × List String :=
  let base := lookup2 PRIMARY_MOISTURE_BASE primary DEFAULT_RANGE
  let t0 := midpoint base.1 base.2
  traits.foldl
    (fun acc t =>
      match (TRAIT_MODIFIERS.lookup t) with
      | none => acc
      | some m =>
          (acc.1 + m.1, acc.2.1 + m.2.1, acc.2.2.1 + m.2.2,
           acc.2.2.2 ++
             [t ++ "(" ++ toString m.1 ++ "," ++ toString m.2.1 ++ "," ++
              toString m.2.2 ++ ")"]))
    (base.1, base.2, t0, [])

/-- `compute_moisture` from moisture_service.py. -/
def compute_moisture (primary : String) (traits : List String) : MoistureOut :=
  let a := moistureAccum primary traits
  let mn := clamp_int a.1 0 100
  let mx0 := clamp_int a.2.1 0 100
  let mx := if mx0 < mn then mn else mx0
  let tg := clamp_int a.2.2.1 mn mx
  ⟨mn, mx, tg, a.2.2.2⟩

/-- Result of `compute_climate`, the tuple
`(tmin, tmax, ttarget, hmin, hmax, htarget, applied)`. -/
structure ClimateOut where
  tmin : Int
  tmax : Int
  ttarget : Int
  hmin : Int
  hmax : Int
  htarget : Int
  applied : List String
deriving Repr, DecidableEq

/-- `PRIMARY_TEMP_BASE_C["houseplant"]`, the fallback band used by
`compute_climate` for categories missing from the temperature table. -/
def tempDefault : Int × Int := lookup2 PRIMARY_TEMP_BASE_C "houseplant" (0, 0)

/-- `PRIMARY_HUM_BASE["houseplant"]`, the fallback band used by
`compute_climate` for categories missing from the humidity table. -/
def humDefault : Int × Int := lookup2 PRIMARY_HUM_BASE "houseplant" (0, 0)

/-- The accumulation phase of `compute_climate`: base bands and additive
per-trait deltas in trait-list order, before the repair and clamping.
Returns `(tmin, tmax, hmin, hmax, applied)`. -/
def climateAccum (primary : String) (traits : List String) :
    Int × Int × Int × Int × List String :=
  let tb := lookup2 PRIMARY_TEMP_BASE_C primary tempDefault
  let hb := lookup2 PRIMARY_HUM_BASE primary humDefault
  traits.foldl
    (fun acc t =>
      match (CLIMATE_TRAIT_MODS.lookup t) with
      | none => acc
      | some m =>
          (acc.1 + m.1, acc.2.1 + m.2.1, acc.2.2.1 + m.2.2.1,
           acc.2.2.2.1 + m.2.2.2,
           acc.2.2.2.2 ++
             [t ++ "(t" ++ toString m.1 ++ "," ++ toString m.2.1 ++ " h" ++
              toString m.2.2.1 ++ "," ++ toString m.2.2.2 ++ ")"]))
    (tb.1, tb.2, hb.1, hb.2, [])

/-- `compute_climate` from moisture_service.py.  Note the source repairs
`tmax < tmin` (resp. `hmax < hmin`) *before* clamping each pair to its
domain. -/
def compute_climate (primary : String) (traits : List String) : ClimateOut :=
  let a := climateAccum primary traits
  let tmax0 := if a.2.1 < a.1 then a.1 else a.2.1
  let tmin := clamp_int a.1 (-30) 60
  let tmax := clamp_int tmax0 (-30) 60
  let hmax0 := if a.2.2.2.1 < a.2.2.1 then a.2.2.1 else a.2.2.2.1
  let hmin := clamp_int a.2.2.1 0 100
  let hmax := clamp_int hmax0 0 100
  ⟨tmin, tmax, midpoint tmin tmax, hmin, hmax, midpoint hmin hmax, a.2.2.2.2⟩

/-! ## Trait extraction and category scoring (wikidata_service.py)

`infer_primary_and_traits` receives the already-lowercased corpus
(`combined`); we model it as a function of that corpus string.  The
ordered sequences of `if _has_any(...)` statements in the source are
embedded as folds over explicit rule tables kept in the source's order. -/

/-- `_is_explicit_indoor` from wikidata_service.py. -/
def isExplicitIndoor (text : String) : Bool :=
  hasAny text
    ["houseplant", "indoor plant", "potted plant", "grown indoors",
     "cultivated as a houseplant", "commonly kept as a houseplant"]

/-- `_is_wild_context` from wikidata_service.py. -/
def isWildContext (text : String) : Bool :=
  hasAny text
    ["native to", "native of", "endemic to", "found in", "occurs in",
     "distributed in", "distribution", "habitat", "wildflower", "grows in",
     "naturalised", "naturalized", "flora of", "plants of", "vegetation of"]

/-- `dedup_preserve_order` from utils/text_utils.py: drops empty strings and
keeps the first occurrence of each element. -/
def dedup_preserve_order (items : List String) : List String :=
  items.foldl
    (fun out x => if x != "" && !(out.contains x) then out ++ [x] else out) []

/-- `_add_trait` from wikidata_service.py, acting on the
`(traits, reasoning)` pair. -/
def addTrait (st : List String × List String) (name why : String) :
    List String × List String :=
  if st.1.contains name then st
  else (st.1 ++ [name], st.2 ++ ["trait: " ++ name ++ " (" ++ why ++ ")"])

/-- The ordered trait rules of `infer_primary_and_traits` (wikidata_service.py
lines 176-201): each is `(trigger keywords, trait name)`; every call passes
`"keyword"` as the reason. -/
def TRAIT_RULES : List (List String × String) :=
  [(["cactus", "cactaceae"], "cactus"),
   (["succulent", "crassulaceae", "aloe", "echeveria", "sedum"], "succulent"),
   (["xerophyte", "xerophytic"], "xerophyte"),
   (["drought tolerant", "drought-tolerant", "arid", "semi-arid", "semiarid"],
    "drought_tolerant"),
   (["hydrophyte", "water plant", "aquatic plant"], "hydrophyte"),
   (["wetland", "marsh", "swamp", "fen", "riparian"], "wetland_plant"),
   (["bog", "peat", "mire"], "bog_plant"),
   (["arctic", "tundra", "polar"], "arctic"),
   (["alpine", "subalpine", "montane", "high elevation", "high-elevation"],
    "alpine"),
   (["boreal", "taiga"], "boreal"),
   (["cold hardy", "cold-hardy", "frost", "freeze", "freezing", "snow",
     "subzero"], "cold_hardy")]

/-- One trait rule applied to the `(traits, reasoning)` state. -/
def applyTraitRule (c : String) (st : List String × List String)
    (r : List String × String) : List String × List String :=
  if hasAny c r.1 then addTrait st r.2 "keyword" else st

/-- The trait-extraction phase of `infer_primary_and_traits`: the ordered
conditional `_add_trait` calls, starting from empty traits and reasoning. -/
def extractTraits (c : String) : List String × List String :=
  TRAIT_RULES.foldl (applyTraitRule c) ([], [])

/-- `PRIMARY_KEYS` from wikidata_service.py (the fixed category
enumeration, in order). -/
def PRIMARY_KEYS : List String :=
  ["arctic", "alpine", "temperate_cold", "temperate", "mediterranean",
   "desert", "grassland", "savanna", "subtropical", "tropical", "rainforest",
   "wetland", "bog", "aquatic", "coastal", "houseplant"]

/-- A scoring-rule trigger: either a keyword match against the corpus
(`_has_any(combined, ...)`) or a membership test against the extracted
trait list (`t in traits`). -/
inductive Trigger where
  | kw : List String → Trigger
  | anyTrait : List String → Trigger
deriving Repr, DecidableEq

/-- Does a trigger fire for corpus `c` and extracted traits `tr`? -/
def fires (c : String) (tr : List String) : Trigger → Bool
  | Trigger.kw ws => hasAny c ws
  | Trigger.anyTrait ts => ts.any (fun t => tr.contains t)

/-- One scoring rule of `infer_primary_and_traits`: on `trig` firing, add
`delta` to `cat`'s score and log `why`. -/
structure Rule where
  trig : Trigger
  cat : String
  delta : Int
  why : String
deriving Repr, DecidableEq

/-- Scorer state: the score map (total function, zero outside touched keys,
mirroring `{k: 0 for k in PRIMARY_KEYS}` plus `dict.get(key, 0)`) and the
shared reasoning log. -/
structure ScoreSt where
  scores : String → Int
  reasoning : List String

/-- `_add_score` from wikidata_service.py. -/
def addScore (st : ScoreSt) (key : String) (d : Int) (why : String) : ScoreSt :=
  { scores := fun k => if k = key then st.scores k + d else st.scores k,
    reasoning :=
      st.reasoning ++ ["primary +" ++ toString d ++ " " ++ key ++ " (" ++ why ++ ")"] }

/-- The ordered scoring rules of `infer_primary_and_traits`
(wikidata_service.py lines 242-307), after the two houseplant bias
adjustments which are handled separately. -/
def SCORE_RULES : List Rule :=
  [⟨Trigger.kw ["arctic", "tundra", "polar", "polar desert"], "arctic", 12,
    "arctic/tundra keywords"⟩,
   ⟨Trigger.kw ["alpine", "subalpine", "montane", "mountain",
      "high elevation", "high-elevation"], "alpine", 10,
    "alpine/mountain keywords"⟩,
   ⟨Trigger.kw ["boreal", "taiga"], "temperate_cold", 8,
    "boreal/taiga keywords"⟩,
   ⟨Trigger.kw ["frost", "freeze", "freezing", "snow", "ice", "subzero"],
    "temperate_cold", 5, "cold conditions keywords"⟩,
   ⟨Trigger.kw ["mediterranean", "mediterranea", "maquis", "garrigue"],
    "mediterranean", 10, "mediterranean biome keywords"⟩,
   ⟨Trigger.kw ["spain", "iberian", "andalusia", "portugal", "balearic"],
    "mediterranean", 6, "iberian region keywords"⟩,
   ⟨Trigger.kw ["desert"], "desert", 10, "desert keyword"⟩,
   ⟨Trigger.kw ["arid", "semi-arid", "semiarid", "xeric"], "desert", 5,
    "arid/xeric keywords"⟩,
   ⟨Trigger.anyTrait ["cactus", "succulent", "xerophyte", "drought_tolerant"],
    "desert", 4, "dry traits"⟩,
   ⟨Trigger.kw ["aquatic", "water plant", "hydrophyte"], "aquatic", 10,
    "aquatic keywords"⟩,
   ⟨Trigger.kw ["bog", "peat", "mire"], "bog", 9, "bog keywords"⟩,
   ⟨Trigger.kw ["wetland", "marsh", "swamp", "fen", "riparian"], "wetland", 8,
    "wetland keywords"⟩,
   ⟨Trigger.anyTrait ["hydrophyte"], "aquatic", 2, "hydrophyte trait"⟩,
   ⟨Trigger.anyTrait ["bog_plant"], "bog", 2, "bog trait"⟩,
   ⟨Trigger.anyTrait ["wetland_plant"], "wetland", 2, "wetland trait"⟩,
   ⟨Trigger.kw ["rainforest"], "rainforest", 9, "rainforest keyword"⟩,
   ⟨Trigger.kw ["tropical", "tropics"], "tropical", 6, "tropical keyword"⟩,
   ⟨Trigger.kw ["subtropical"], "subtropical", 5, "subtropical keyword"⟩,
   ⟨Trigger.kw ["humid", "high humidity"], "rainforest", 2, "humid hint"⟩,
   ⟨Trigger.kw ["coastal", "shore", "dune", "seashore", "salt spray",
      "saline", "littoral"], "coastal", 7, "coastal keywords"⟩,
   ⟨Trigger.kw ["grassland", "prairie", "steppe", "meadow"], "grassland", 7,
    "grassland keywords"⟩,
   ⟨Trigger.kw ["savanna", "savannah"], "savanna", 7, "savanna keywords"⟩,
   ⟨Trigger.kw ["temperate"], "temperate", 4, "temperate keyword"⟩,
   ⟨Trigger.kw ["canada", "alberta", "saskatchewan", "british columbia",
      "rocky mountains"], "temperate_cold", 4, "canada/rockies region"⟩]

/-- One scoring rule applied to the scorer state. -/
def applyRule (c : String) (tr : List String) (st : ScoreSt) (r : Rule) :
    ScoreSt :=
  if fires c tr r.trig then addScore st r.cat r.delta r.why else st

/-- The scorer state after the trait-extraction reasoning, the zero score
initialization, and the two houseplant bias adjustments (the hard
houseplant-only-if-explicit rule and the wild/native-context penalty),
before the keyword/trait scoring rules run. -/
def biasedInit (c : String) : ScoreSt :=
  let st0 : ScoreSt := { scores := fun _ => 0, reasoning := (extractTraits c).2 }
  let st1 :=
    if isExplicitIndoor c then addScore st0 "houseplant" 10 "explicit indoor wording"
    else
      { scores := fun k => if k = "houseplant" then st0.scores k - 6 else st0.scores k,
        reasoning := st0.reasoning ++ ["primary -6 houseplant (not explicitly indoor)"] }
  if isWildContext c then
    { scores := fun k => if k = "houseplant" then st1.scores k - 6 else st1.scores k,
      reasoning := st1.reasoning ++ ["primary -6 houseplant (wild/native context)"] }
  else st1

/-- The fully accumulated scorer state for corpus `c`. -/
def scoreState (c : String) : ScoreSt :=
  SCORE_RULES.foldl (applyRule c (extractTraits c).1) (biasedInit c)

/-- `max(..., key=...)` step combining: keep the current best unless the
candidate scores strictly higher (Python's `max` returns the first maximal
element). -/
def pickBetter (f : String → Int) (best k : String) : String :=
  if f best < f k then k else best

/-- `max(scores.items(), key=lambda kv: kv[1])[0]` over keys listed in
insertion order (`PRIMARY_KEYS` order, since every scored key is in
`PRIMARY_KEYS`). -/
def argmaxFirst (f : String → Int) (keys : List String) : String :=
  match keys with
  | [] => ""
  | k :: ks => ks.foldl (pickBetter f) k

/-- The `primary = max(scores.items(), ...)` selection of
`infer_primary_and_traits`. -/
def pickPrimary (c : String) : String :=
  argmaxFirst (scoreState c).scores PRIMARY_KEYS

/-- `infer_primary_and_traits` from wikidata_service.py, as a function of the
already-lowercased combined corpus.  Returns
`(primary_category, traits, reasoning)`. -/
def inferPrimaryAndTraits (c : String) : String × List String × List String :=
  let st := scoreState c
  let p0 := pickPrimary c
  let tr := dedup_preserve_order (extractTraits c).1
  if st.scores p0 ≤ 0 then
    let fb := if isExplicitIndoor c then "houseplant" else "temperate"
    (fb, tr, st.reasoning ++ ["primary fallback: " ++ fb ++ " (no strong signals)"])
  else
    (p0, tr, st.reasoning)

/-! ## Arithmetic lemmas about clamping and the midpoint -/

theorem lo_le_clamp (x lo hi : Int) : lo ≤ clamp_int x lo hi := by
  unfold clamp_int
  omega

theorem clamp_le_hi (x lo hi : Int) (h : lo ≤ hi) : clamp_int x lo hi ≤ hi := by
  unfold clamp_int
  omega

theorem clamp_mono (x y lo hi : Int) (h : x ≤ y) :
    clamp_int x lo hi ≤ clamp_int y lo hi := by
  unfold clamp_int
  omega

theorem clamp_lt_rev (x y lo hi : Int) (h : clamp_int y lo hi < clamp_int x lo hi) :
    y < x := by
  unfold clamp_int at h
  omega

theorem midpoint_ge (a b : Int) (h : a ≤ b) : a ≤ midpoint a b := by
  unfold midpoint pyRound2
  split_ifs <;> omega

theorem midpoint_le (a b : Int) (h : a ≤ b) : midpoint a b ≤ b := by
  unfold midpoint pyRound2
  split_ifs <;> omega

theorem midpoint_even (a b : Int) (h : (a + b) % 2 = 0) :
    2 * midpoint a b = a + b := by
  unfold midpoint pyRound2
  split_ifs <;> omega

theorem midpoint_odd (a b : Int) (h : (a + b) % 2 = 1) :
    (2 * midpoint a b = a + b - 1 ∨ 2 * midpoint a b = a + b + 1) ∧
      midpoint a b % 2 = 0 := by
  unfold midpoint pyRound2
  split_ifs <;> constructor <;> omega

/-! ## Properties of the first-maximum selection -/

theorem le_foldl_pickBetter (f : String → Int) :
    ∀ (ks : List String) (b : String),
      f b ≤ f (ks.foldl (pickBetter f) b) := by
  intro ks
  induction ks with
  | nil => intro b; exact le_refl _
  | cons k ks ih =>
    intro b
    have h1 : f b ≤ f (pickBetter f b k) := by
      unfold pickBetter
      split
      · exact le_of_lt (by assumption)
      · exact le_refl _
    exact le_trans h1 (ih (pickBetter f b k))

theorem foldl_pickBetter_ge (f : String → Int) :
    ∀ (ks : List String) (b : String),
      ∀ x ∈ ks, f x ≤ f (ks.foldl (pickBetter f) b) := by
  intro ks
  induction ks with
  | nil => intro b x hx; cases hx
  | cons k ks ih =>
    intro b x hx
    rcases List.mem_cons.mp hx with h | h
    · subst h
      have h1 : f x ≤ f (pickBetter f b x) := by
        unfold pickBetter
        split
        · exact le_refl _
        · omega
      exact le_trans h1 (le_foldl_pickBetter f ks (pickBetter f b x))
    · exact ih (pickBetter f b k) x h

theorem foldl_pickBetter_first (f : String → Int) :
    ∀ (ks : List String) (b : String),
      ∃ l₁ l₂, b :: ks = l₁ ++ (ks.foldl (pickBetter f) b) :: l₂ ∧
        ∀ x ∈ l₁, f x < f (ks.foldl (pickBetter f) b) := by
  intro ks
  induction ks with
  | nil =>
    intro b
    exact ⟨[], [], rfl, by simp⟩
  | cons k ks ih =>
    intro b
    show ∃ l₁ l₂,
        b :: k :: ks = l₁ ++ (ks.foldl (pickBetter f) (pickBetter f b k)) :: l₂ ∧
          ∀ x ∈ l₁, f x < f (ks.foldl (pickBetter f) (pickBetter f b k))
    obtain ⟨l₁, l₂, heq, hlt⟩ := ih (pickBetter f b k)
    by_cases hb : f b < f k
    · have hpk : pickBetter f b k = k := by
        unfold pickBetter
        exact if_pos hb
      rw [hpk] at heq hlt ⊢
      refine ⟨b :: l₁, l₂, ?_, ?_⟩
      · rw [List.cons_append, ← heq]
      · intro x hx
        rcases List.mem_cons.mp hx with h | h
        · subst h
          exact lt_of_lt_of_le hb (le_foldl_pickBetter f ks k)
        · exact hlt x h
    · have hpk : pickBetter f b k = b := by
        unfold pickBetter
        exact if_neg hb
      rw [hpk] at heq hlt ⊢
      cases l₁ with
      | nil =>
        rw [List.nil_append] at heq
        injection heq with h1 h2
        refine ⟨[], k :: ks, ?_, by simp⟩
        rw [List.nil_append, ← h1]
      | cons y t =>
        rw [List.cons_append] at heq
        injection heq with h1 h2
        refine ⟨b :: k :: t, l₂, ?_, ?_⟩
        · rw [List.cons_append, List.cons_append, ← h2]
        · intro x hx
          have hyr : f b < f (ks.foldl (pickBetter f) b) := by
            have hy := hlt y (List.mem_cons_self y t)
            rw [← h1] at hy
            exact hy
          rcases List.mem_cons.mp hx with h | h
          · subst h; exact hyr
          · rcases List.mem_cons.mp h with h3 | h3
            · subst h3
              have : f x ≤ f b := by omega
              omega
            · exact hlt x (List.mem_cons_of_mem y h3)

theorem argmaxFirst_mem (f : String → Int) (k : String) (ks : List String) :
    argmaxFirst f (k :: ks) ∈ k :: ks := by
  obtain ⟨l₁, l₂, heq, -⟩ := foldl_pickBetter_first f ks k
  rw [argmaxFirst, heq]
  exact List.mem_append.mpr (Or.inr (List.mem_cons_self _ _))

theorem argmaxFirst_max (f : String → Int) (k : String) (ks : List String) :
    ∀ x ∈ k :: ks, f x ≤ f (argmaxFirst f (k :: ks)) := by
  intro x hx
  rcases List.mem_cons.mp hx with h | h
  · subst h; exact le_foldl_pickBetter f ks x
  · exact foldl_pickBetter_ge f ks k x h

theorem argmaxFirst_first (f : String → Int) (k : String) (ks : List String) :
    ∃ l₁ l₂, k :: ks = l₁ ++ (argmaxFirst f (k :: ks)) :: l₂ ∧
      ∀ x ∈ l₁, f x < f (argmaxFirst f (k :: ks)) :=
  foldl_pickBetter_first f ks k

/-! ## Structure of the accumulated scores -/

/-- The contribution of one scoring rule to category `k`'s score. -/
def ruleContrib (c : String) (tr : List String) (k : String) (r : Rule) : Int :=
  if r.cat = k then (if fires c tr r.trig then r.delta else 0) else 0

theorem applyRule_scores (c : String) (tr : List String) (st : ScoreSt)
    (r : Rule) (k : String) :
    (applyRule c tr st r).scores k = st.scores k + ruleContrib c tr k r := by
  unfold applyRule ruleContrib addScore
  by_cases hf : fires c tr r.trig = true
  · by_cases hk : k = r.cat
    · simp [hf, hk]
    · have hk2 : ¬(r.cat = k) := fun h => hk h.symm
      simp [hf, hk, hk2]
  · simp [hf]

theorem foldl_applyRule_scores (c : String) (tr : List String) :
    ∀ (rules : List Rule) (st : ScoreSt) (k : String),
      (rules.foldl (applyRule c tr) st).scores k =
        st.scores k + (rules.map (ruleContrib c tr k)).sum := by
  intro rules
  induction rules with
  | nil => intro st k; simp
  | cons r rules ih =>
    intro st k
    rw [List.foldl_cons, ih, List.map_cons, List.sum_cons, applyRule_scores]
    omega

theorem biasedInit_houseplant (c : String) :
    (biasedInit c).scores "houseplant" =
      (if isExplicitIndoor c then 10 else -6) +
        (if isWildContext c then -6 else 0) := by
  unfold biasedInit addScore
  by_cases he : isExplicitIndoor c = true
  · by_cases hw : isWildContext c = true
    · simp [he, hw]
    · simp [he, hw]
  · by_cases hw : isWildContext c = true
    · simp [he, hw]
    · simp [he, hw]

theorem biasedInit_ne (c k' : String) (h : ¬(k' = "houseplant")) :
    (biasedInit c).scores k' = 0 := by
  unfold biasedInit addScore
  by_cases he : isExplicitIndoor c = true
  · by_cases hw : isWildContext c = true
    · simp [he, hw, h]
    · simp [he, hw, h]
  · by_cases hw : isWildContext c = true
    · simp [he, hw, h]
    · simp [he, hw, h]

/-- The houseplant score is exactly the two bias adjustments: none of the
keyword/trait scoring rules targets `houseplant`. -/
theorem scoreState_houseplant (c : String) :
    (scoreState c).scores "houseplant" =
      (if isExplicitIndoor c then 10 else -6) +
        (if isWildContext c then -6 else 0) := by
  unfold scoreState
  rw [foldl_applyRule_scores, biasedInit_houseplant]
  have hsum :
      (SCORE_RULES.map (ruleContrib c (extractTraits c).1 "houseplant")).sum = 0 := by
    simp [SCORE_RULES, ruleContrib]
  rw [hsum]
  omega

/-- The rainforest score is the sum of the two keyword rules targeting it. -/
theorem scoreState_rainforest (c : String) :
    (scoreState c).scores "rainforest" =
      (if hasAny c ["rainforest"] then 9 else 0) +
        (if hasAny c ["humid", "high humidity"] then 2 else 0) := by
  unfold scoreState
  rw [foldl_applyRule_scores, biasedInit_ne c "rainforest" (by decide)]
  simp [SCORE_RULES, ruleContrib, fires]

/-! ## Structure of the extracted traits -/

theorem mem_applyTraitRule (c : String) (st : List String × List String)
    (r : List String × String) (x : String)
    (hx : x ∈ (applyTraitRule c st r).1) : x ∈ st.1 ∨ x = r.2 := by
  unfold applyTraitRule addTrait at hx
  by_cases hf : hasAny c r.1 = true
  · rw [if_pos hf] at hx
    by_cases hc : st.1.contains r.2 = true
    · rw [if_pos hc] at hx
      exact Or.inl hx
    · rw [if_neg hc] at hx
      dsimp only at hx
      rcases List.mem_append.mp hx with h | h
      · exact Or.inl h
      · exact Or.inr (List.mem_singleton.mp h)
  · rw [if_neg hf] at hx
    exact Or.inl hx

theorem mem_foldl_traitRules (c : String) :
    ∀ (rules : List (List String × String)) (st : List String × List String)
      (x : String),
      x ∈ (rules.foldl (applyTraitRule c) st).1 →
        x ∈ st.1 ∨ ∃ r ∈ rules, r.2 = x := by
  intro rules
  induction rules with
  | nil => intro st x hx; exact Or.inl hx
  | cons r rules ih =>
    intro st x hx
    rw [List.foldl_cons] at hx
    rcases ih (applyTraitRule c st r) x hx with h | ⟨r', hr', h2⟩
    · rcases mem_applyTraitRule c st r x h with h3 | h3
      · exact Or.inl h3
      · exact Or.inr ⟨r, List.mem_cons_self r rules, h3.symm⟩
    · exact Or.inr ⟨r', List.mem_cons_of_mem r hr', h2⟩

/-- Every extracted trait is the trait name of one of the trait rules. -/
theorem extractTraits_subset (c : String) (x : String)
    (hx : x ∈ (extractTraits c).1) : ∃ r ∈ TRAIT_RULES, r.2 = x := by
  rcases mem_foldl_traitRules c TRAIT_RULES ([], []) x hx with h | h
  · cases h
  · exact h

/-! ## Claim C1 -/

/-- Claim C1 (confirmed): for every category string (including strings
outside the enumeration) and every list of trait strings, each derived range
satisfies `min ≤ target ≤ max`, with moisture and humidity bounds in
`[0, 100]` and temperature bounds in `[-30, 60]`; whenever the additively
modified band would have `max < min` after clamping, the result collapses to
`max = min` rather than an inverted range.  Both derivation functions are
total, so no input "raises". -/
theorem C1_range_validity (p : String) (tr : List String) :
    (0 ≤ (compute_moisture p tr).mn ∧
     (compute_moisture p tr).mn ≤ (compute_moisture p tr).target ∧
     (compute_moisture p tr).target ≤ (compute_moisture p tr).mx ∧
     (compute_moisture p tr).mx ≤ 100) ∧
    (-30 ≤ (compute_climate p tr).tmin ∧
     (compute_climate p tr).tmin ≤ (compute_climate p tr).ttarget ∧
     (compute_climate p tr).ttarget ≤ (compute_climate p tr).tmax ∧
     (compute_climate p tr).tmax ≤ 60) ∧
    (0 ≤ (compute_climate p tr).hmin ∧
     (compute_climate p tr).hmin ≤ (compute_climate p tr).htarget ∧
     (compute_climate p tr).htarget ≤ (compute_climate p tr).hmax ∧
     (compute_climate p tr).hmax ≤ 100) ∧
    (clamp_int (moistureAccum p tr).2.1 0 100 <
        clamp_int (moistureAccum p tr).1 0 100 →
      (compute_moisture p tr).mx = (compute_moisture p tr).mn) ∧
    (clamp_int (climateAccum p tr).2.1 (-30) 60 <
        clamp_int (climateAccum p tr).1 (-30) 60 →
      (compute_climate p tr).tmax = (compute_climate p tr).tmin) ∧
    (clamp_int (climateAccum p tr).2.2.2.1 0 100 <
        clamp_int (climateAccum p tr).2.2.1 0 100 →
      (compute_climate p tr).hmax = (compute_climate p tr).hmin) := by
  have emn : (compute_moisture p tr).mn = clamp_int (moistureAccum p tr).1 0 100 := rfl
  have emx : (compute_moisture p tr).mx =
      (if clamp_int (moistureAccum p tr).2.1 0 100 <
            clamp_int (moistureAccum p tr).1 0 100 then
          clamp_int (moistureAccum p tr).1 0 100
        else clamp_int (moistureAccum p tr).2.1 0 100) := rfl
  have etg : (compute_moisture p tr).target =
      clamp_int (moistureAccum p tr).2.2.1 (compute_moisture p tr).mn
        (compute_moisture p tr).mx := rfl
  have etmax0 : (compute_climate p tr).tmax =
      clamp_int (if (climateAccum p tr).2.1 < (climateAccum p tr).1 then
          (climateAccum p tr).1 else (climateAccum p tr).2.1) (-30) 60 := rfl
  have etmin : (compute_climate p tr).tmin =
      clamp_int (climateAccum p tr).1 (-30) 60 := rfl
  have ett : (compute_climate p tr).ttarget =
      midpoint (compute_climate p tr).tmin (compute_climate p tr).tmax := rfl
  have ehmax0 : (compute_climate p tr).hmax =
      clamp_int (if (climateAccum p tr).2.2.2.1 < (climateAccum p tr).2.2.1 then
          (climateAccum p tr).2.2.1 else (climateAccum p tr).2.2.2.1) 0 100 := rfl
  have ehmin : (compute_climate p tr).hmin =
      clamp_int (climateAccum p tr).2.2.1 0 100 := rfl
  have eht : (compute_climate p tr).htarget =
      midpoint (compute_climate p tr).hmin (compute_climate p tr).hmax := rfl
  have httord : (compute_climate p tr).tmin ≤ (compute_climate p tr).tmax := by
    rw [etmin, etmax0]
    apply clamp_mono
    split_ifs <;> omega
  have hhord : (compute_climate p tr).hmin ≤ (compute_climate p tr).hmax := by
    rw [ehmin, ehmax0]
    apply clamp_mono
    split_ifs <;> omega
  refine ⟨?_, ?_, ?_, ?_, ?_, ?_⟩
  · rw [etg, emn, emx]
    simp only [clamp_int]
    split_ifs <;> omega
  · refine ⟨?_, ?_, ?_, ?_⟩
    · rw [etmin]; exact lo_le_clamp _ _ _
    · rw [ett]; exact midpoint_ge _ _ httord
    · rw [ett]; exact midpoint_le _ _ httord
    · rw [etmax0]; exact clamp_le_hi _ _ _ (by norm_num)
  · refine ⟨?_, ?_, ?_, ?_⟩
    · rw [ehmin]; exact lo_le_clamp _ _ _
    · rw [eht]; exact midpoint_ge _ _ hhord
    · rw [eht]; exact midpoint_le _ _ hhord
    · rw [ehmax0]; exact clamp_le_hi _ _ _ (by norm_num)
  · intro h
    rw [emx, emn, if_pos h]
  · intro h
    have hraw : (climateAccum p tr).2.1 < (climateAccum p tr).1 :=
      clamp_lt_rev _ _ _ _ h
    rw [etmax0, etmin, if_pos hraw]
  · intro h
    have hraw : (climateAccum p tr).2.2.2.1 < (climateAccum p tr).2.2.1 :=
      clamp_lt_rev _ _ _ _ h
    rw [ehmax0, ehmin, if_pos hraw]

/-- Witness for C1 at a concrete input. -/
theorem C1_range_validity_witness :
    0 ≤ (compute_moisture "desert" ["cactus"]).mn ∧
      (compute_moisture "desert" ["cactus"]).target ≤
        (compute_moisture "desert" ["cactus"]).mx ∧
      (compute_climate "desert" ["cactus"]).tmin ≤
        (compute_climate "desert" ["cactus"]).ttarget := by
  have h := C1_range_validity "desert" ["cactus"]
  exact ⟨h.1.1, h.1.2.2.1, h.2.1.2.1⟩

/-! ## Claim C6 -/

/-- Counterexample for claim C6: for the reachable final clamped humidity
band `(30, 55)` of category `mediterranean` with no traits, `min + max = 85`
is odd, so rounding half-up would give target `(85 + 1) / 2 = 43`, but the
code (Python `round`, which rounds half to even) returns `42`. -/
theorem C6_counterexample :
    (compute_climate "mediterranean" []).hmin = 30 ∧
      (compute_climate "mediterranean" []).hmax = 55 ∧
      (2 : Int) * 43 = 30 + 55 + 1 ∧
      (compute_climate "mediterranean" []).htarget = 42 ∧
      (((42 : Int) == 43) = false) := by
  refine ⟨by decide, by decide, by norm_num, by decide, by decide⟩

/-- Claim C6 as amended: for every final clamped pair in the temperature and
humidity dimensions, the returned target is the integer midpoint rounded half
to *even* (Python banker's rounding): when `min + max` is even the target is
exactly `(min + max) / 2`, and when `min + max` is odd the target is the even
one of the two integers adjacent to the true midpoint. -/
theorem C6_midpoint_half_even (p : String) (tr : List String) :
    ((compute_climate p tr).ttarget =
        midpoint (compute_climate p tr).tmin (compute_climate p tr).tmax) ∧
    ((compute_climate p tr).htarget =
        midpoint (compute_climate p tr).hmin (compute_climate p tr).hmax) ∧
    (((compute_climate p tr).tmin + (compute_climate p tr).tmax) % 2 = 0 →
      2 * (compute_climate p tr).ttarget =
        (compute_climate p tr).tmin + (compute_climate p tr).tmax) ∧
    (((compute_climate p tr).tmin + (compute_climate p tr).tmax) % 2 = 1 →
      (2 * (compute_climate p tr).ttarget =
          (compute_climate p tr).tmin + (compute_climate p tr).tmax - 1 ∨
        2 * (compute_climate p tr).ttarget =
          (compute_climate p tr).tmin + (compute_climate p tr).tmax + 1) ∧
        (compute_climate p tr).ttarget % 2 = 0) ∧
    (((compute_climate p tr).hmin + (compute_climate p tr).hmax) % 2 = 0 →
      2 * (compute_climate p tr).htarget =
        (compute_climate p tr).hmin + (compute_climate p tr).hmax) ∧
    (((compute_climate p tr).hmin + (compute_climate p tr).hmax) % 2 = 1 →
      (2 * (compute_climate p tr).htarget =
          (compute_climate p tr).hmin + (compute_climate p tr).hmax - 1 ∨
        2 * (compute_climate p tr).htarget =
          (compute_climate p tr).hmin + (compute_climate p tr).hmax + 1) ∧
        (compute_climate p tr).htarget % 2 = 0) := by
  have ett : (compute_climate p tr).ttarget =
      midpoint (compute_climate p tr).tmin (compute_climate p tr).tmax := rfl
  have eht : (compute_climate p tr).htarget =
      midpoint (compute_climate p tr).hmin (compute_climate p tr).hmax := rfl
  refine ⟨ett, eht, ?_, ?_, ?_, ?_⟩
  · intro h; rw [ett]; exact midpoint_even _ _ h
  · intro h; rw [ett]; exact midpoint_odd _ _ h
  · intro h; rw [eht]; exact midpoint_even _ _ h
  · intro h; rw [eht]; exact midpoint_odd _ _ h

/-- Witness for the amended C6 at the concrete mediterranean band. -/
theorem C6_midpoint_half_even_witness :
    (2 * (compute_climate "mediterranean" []).htarget =
        (compute_climate "mediterranean" []).hmin +
          (compute_climate "mediterranean" []).hmax - 1 ∨
      2 * (compute_climate "mediterranean" []).htarget =
        (compute_climate "mediterranean" []).hmin +
          (compute_climate "mediterranean" []).hmax + 1) ∧
      (compute_climate "mediterranean" []).htarget % 2 = 0 :=
  (C6_midpoint_half_even "mediterranean" []).2.2.2.2.2 (by decide)

/-! ## The two branches of the final selection -/

theorem inferPrimary_fallback (c : String)
    (h : (scoreState c).scores (pickPrimary c) ≤ 0) :
    inferPrimaryAndTraits c =
      (if isExplicitIndoor c then "houseplant" else "temperate",
       dedup_preserve_order (extractTraits c).1,
       (scoreState c).reasoning ++
         ["primary fallback: " ++
           (if isExplicitIndoor c then "houseplant" else "temperate") ++
           " (no strong signals)"]) := by
  simp only [inferPrimaryAndTraits]
  rw [if_pos h]

theorem inferPrimary_win (c : String)
    (h : ¬((scoreState c).scores (pickPrimary c) ≤ 0)) :
    inferPrimaryAndTraits c =
      (pickPrimary c, dedup_preserve_order (extractTraits c).1,
       (scoreState c).reasoning) := by
  simp only [inferPrimaryAndTraits]
  rw [if_neg h]

theorem pickPrimary_mem (c : String) : pickPrimary c ∈ PRIMARY_KEYS :=
  argmaxFirst_mem (scoreState c).scores "arctic"
    ["alpine", "temperate_cold", "temperate", "mediterranean", "desert",
     "grassland", "savanna", "subtropical", "tropical", "rainforest",
     "wetland", "bog", "aquatic", "coastal", "houseplant"]

theorem pickPrimary_max (c : String) :
    ∀ k ∈ PRIMARY_KEYS,
      (scoreState c).scores k ≤ (scoreState c).scores (pickPrimary c) :=
  argmaxFirst_max (scoreState c).scores "arctic"
    ["alpine", "temperate_cold", "temperate", "mediterranean", "desert",
     "grassland", "savanna", "subtropical", "tropical", "rainforest",
     "wetland", "bog", "aquatic", "coastal", "houseplant"]

/-! ## Claim C2 -/

/-- Claim C2 (confirmed): whenever every accumulated category score is `≤ 0`
(equivalently, the maximum is), the scorer returns `houseplant` if the
explicit-indoor condition held and `temperate` otherwise, and appends the
explicit fallback entry to the reasoning log.  Both functions are total, so
no input raises. -/
theorem C2_fallback_default (c : String)
    (h : ∀ k ∈ PRIMARY_KEYS, (scoreState c).scores k ≤ 0) :
    (inferPrimaryAndTraits c).1 =
        (if isExplicitIndoor c then "houseplant" else "temperate") ∧
      ("primary fallback: " ++
          (if isExplicitIndoor c then "houseplant" else "temperate") ++
          " (no strong signals)") ∈ (inferPrimaryAndTraits c).2.2 := by
  have hp0 : (scoreState c).scores (pickPrimary c) ≤ 0 :=
    h (pickPrimary c) (pickPrimary_mem c)
  rw [inferPrimary_fallback c hp0]
  refine ⟨rfl, ?_⟩
  exact List.mem_append.mpr (Or.inr (List.mem_singleton.mpr rfl))

/-- Witness for C2: the empty corpus (zero matching keywords, zero traits)
falls back to `temperate` and logs the fallback entry. -/
theorem C2_fallback_default_witness :
    (inferPrimaryAndTraits "").1 = "temperate" ∧
      "primary fallback: temperate (no strong signals)" ∈
        (inferPrimaryAndTraits "").2.2 := by
  have h := C2_fallback_default "" (by decide)
  have he : isExplicitIndoor "" = false := by decide
  rw [he] at h
  simpa using h

/-! ## Claim C3 -/

/-- Claim C3 (confirmed): the selected category is a member of the fixed
enumeration whose score is maximal, and every category strictly before it in
the enumeration order scores strictly less — i.e. ties are broken in favour
of the first category in `PRIMARY_KEYS` order.  The embedding is a pure
function of the corpus, so the selection is deterministic. -/
theorem C3_argmax_first_in_order (c : String) :
    pickPrimary c ∈ PRIMARY_KEYS ∧
      (∀ k ∈ PRIMARY_KEYS,
        (scoreState c).scores k ≤ (scoreState c).scores (pickPrimary c)) ∧
      ∃ l₁ l₂, PRIMARY_KEYS = l₁ ++ pickPrimary c :: l₂ ∧
        ∀ k ∈ l₁, (scoreState c).scores k < (scoreState c).scores (pickPrimary c) :=
  ⟨pickPrimary_mem c, pickPrimary_max c,
    argmaxFirst_first (scoreState c).scores "arctic"
      ["alpine", "temperate_cold", "temperate", "mediterranean", "desert",
       "grassland", "savanna", "subtropical", "tropical", "rainforest",
       "wetland", "bog", "aquatic", "coastal", "houseplant"]⟩

/-- Witness for C3 at a concrete corpus. -/
theorem C3_argmax_first_in_order_witness :
    pickPrimary "tundra" ∈ PRIMARY_KEYS ∧
      (scoreState "tundra").scores "temperate" ≤
        (scoreState "tundra").scores (pickPrimary "tundra") :=
  ⟨(C3_argmax_first_in_order "tundra").1,
    (C3_argmax_first_in_order "tundra").2.1 "temperate" (by decide)⟩

/-! ## Claim C10 -/

/-- Claim C10 (confirmed): an explicit-indoor corpus gives `houseplant` a
net score of at least `+4` (`+10` explicit bonus, at worst `-6` wild-context
penalty), so the maximum score is then strictly positive and the fallback
cannot trigger; hence whenever the fallback triggers the explicit-indoor
condition was false, the `houseplant` arm of the conditional fallback is
unreachable, and the fallback category is always `temperate`. -/
theorem C10_houseplant_fallback_unreachable (c : String) :
    (isExplicitIndoor c = true → 4 ≤ (scoreState c).scores "houseplant") ∧
      ((scoreState c).scores (pickPrimary c) ≤ 0 →
        isExplicitIndoor c = false ∧ (inferPrimaryAndTraits c).1 = "temperate") := by
  have hhp := scoreState_houseplant c
  have h4 : isExplicitIndoor c = true → 4 ≤ (scoreState c).scores "houseplant" := by
    intro he
    rw [hhp, he, if_pos rfl]
    split_ifs <;> omega
  refine ⟨h4, ?_⟩
  intro hle
  cases hb : isExplicitIndoor c with
  | true =>
    exfalso
    have ha := h4 hb
    have hm := pickPrimary_max c "houseplant" (by decide)
    omega
  | false =>
    refine ⟨rfl, ?_⟩
    rw [inferPrimary_fallback c hle]
    simp [hb]

/-- Witness for C10 at a concrete signal-free corpus. -/
theorem C10_houseplant_fallback_unreachable_witness :
    isExplicitIndoor "xyz" = false ∧ (inferPrimaryAndTraits "xyz").1 = "temperate" :=
  (C10_houseplant_fallback_unreachable "xyz").2 (by decide)

/-! ## Claim C4 -/

theorem hasAny_of_mem (c w : String) (ws : List String) (hw : w ∈ ws)
    (h : containsStr c w = true) : hasAny c ws = true := by
  unfold hasAny
  exact List.any_eq_true.mpr ⟨w, hw, h⟩

/-- Counterexample for claim C4 as stated: a corpus that contains
"native to sumatra, tropical rainforest understory", contains no
explicit-indoor phrase, yet is classified `arctic` (additional arctic/tundra
keywords outscore rainforest), so the primary is not `rainforest` or
`tropical` for *every* such corpus. -/
theorem C4_counterexample :
    containsStr "native to sumatra, tropical rainforest understory arctic tundra"
        "native to sumatra, tropical rainforest understory" = true ∧
      isExplicitIndoor
        "native to sumatra, tropical rainforest understory arctic tundra" = false ∧
      (inferPrimaryAndTraits
        "native to sumatra, tropical rainforest understory arctic tundra").1 =
        "arctic" ∧
      (("arctic" == "rainforest") = false) ∧
      (("arctic" == "tropical") = false) := by
  refine ⟨by decide, by decide, by decide, by decide, by decide⟩

/-- Claim C4 as amended: for every corpus containing
"native to sumatra, tropical rainforest understory" and no explicit-indoor
phrase, the houseplant score is exactly `-12` (the not-explicitly-indoor
penalty plus the wild/native-context penalty) and the primary category is
never `houseplant`; for the corpus consisting of exactly that phrase the
primary is `rainforest`. -/
theorem C4_houseplant_excluded (c : String)
    (hphrase :
      containsStr c "native to sumatra, tropical rainforest understory" = true)
    (hind : isExplicitIndoor c = false) :
    (scoreState c).scores "houseplant" = -12 ∧
      (((inferPrimaryAndTraits c).1 == "houseplant") = false) ∧
      (inferPrimaryAndTraits
          "native to sumatra, tropical rainforest understory").1 = "rainforest" := by
  have hwild : isWildContext c = true := by
    unfold isWildContext
    exact hasAny_of_mem c "native to" _ (by decide)
      (isInfixB_trans (by decide) hphrase)
  have hhp : (scoreState c).scores "houseplant" = -12 := by
    rw [scoreState_houseplant, hind, hwild, if_pos rfl]
    simp
  have hrf : 9 ≤ (scoreState c).scores "rainforest" := by
    rw [scoreState_rainforest]
    have h9 : hasAny c ["rainforest"] = true :=
      hasAny_of_mem c "rainforest" _ (by decide)
        (isInfixB_trans (by decide) hphrase)
    rw [h9, if_pos rfl]
    split_ifs <;> omega
  have hpm := pickPrimary_max c "rainforest" (by decide)
  have hne : ¬(pickPrimary c = "houseplant") := by
    intro he
    rw [he] at hpm
    omega
  have hwin : ¬((scoreState c).scores (pickPrimary c) ≤ 0) := by
    intro hle
    omega
  refine ⟨hhp, ?_, by decide⟩
  rw [inferPrimary_win c hwin]
  exact beq_eq_false_iff_ne.mpr hne

/-- Witness for the amended C4 with the phrase itself as the corpus. -/
theorem C4_houseplant_excluded_witness :
    (scoreState "native to sumatra, tropical rainforest understory").scores
        "houseplant" = -12 ∧
      (((inferPrimaryAndTraits
          "native to sumatra, tropical rainforest understory").1 ==
            "houseplant") = false) ∧
      (inferPrimaryAndTraits
          "native to sumatra, tropical rainforest understory").1 = "rainforest" :=
  C4_houseplant_excluded "native to sumatra, tropical rainforest understory"
    (by decide) (by decide)

/-! ## Claim C5 -/

/-- The key set of the moisture base table. -/
def moistureKeys : List String := PRIMARY_MOISTURE_BASE.map (fun e => e.1)

/-- The key set of the temperature base table. -/
def tempKeys : List String := PRIMARY_TEMP_BASE_C.map (fun e => e.1)

/-- The key set of the humidity base table. -/
def humKeys : List String := PRIMARY_HUM_BASE.map (fun e => e.1)

/-- Counterexample for claim C5 as stated: `fern` is a key of the moisture
base table but is neither in the category enumeration nor the designated
default, so the base-table key sets are not contained in the enumeration
plus the default. -/
theorem C5_counterexample :
    (moistureKeys.contains "fern") = true ∧
      (PRIMARY_KEYS.contains "fern") = false ∧
      (("fern" == DEFAULT_PRIMARY) = false) := by
  refine ⟨by decide, by decide, by decide⟩

/-- Claim C5 as amended: every category of the scorer's enumeration is a key
of all three base tables (and the designated default is in the enumeration),
so every category the scorer can output has a defined band in all three
tables; however, the tables additionally contain the extra keys `fern` and
`boreal`, which are outside the enumeration. -/
theorem C5_tables_cover_enumeration :
    (PRIMARY_KEYS.all (fun k =>
        moistureKeys.contains k && tempKeys.contains k && humKeys.contains k))
        = true ∧
      ((moistureKeys ++ tempKeys ++ humKeys).all (fun k =>
        PRIMARY_KEYS.contains k || k == "fern" || k == "boreal")) = true ∧
      (PRIMARY_KEYS.contains DEFAULT_PRIMARY) = true := by
  refine ⟨by decide, by decide, by decide⟩

/-! ## Claim C7 -/

/-- Is a scoring rule a "trait nudge" (triggered by membership of a trait in
the extracted trait list rather than by a corpus keyword match)? -/
def isTraitNudge : Trigger → Bool
  | Trigger.anyTrait _ => true
  | Trigger.kw _ => false

/-- Counterexample for claim C7: the dry-traits nudge adds `+4` to `desert`,
and `4` exceeds the claimed bound of `3`. -/
theorem C7_counterexample :
    (Rule.mk (Trigger.anyTrait ["cactus", "succulent", "xerophyte",
        "drought_tolerant"]) "desert" 4 "dry traits") ∈ SCORE_RULES ∧
      (3 : Int) < 4 := by
  refine ⟨by decide, by norm_num⟩

/-- Claim C7 as amended: every trait-nudge scoring rule adds a positive delta
of at most 4 (the wet-trait nudges add 2; the dry-traits nudge adds 4). -/
theorem C7_trait_nudges_bounded :
    (SCORE_RULES.all (fun r =>
      !(isTraitNudge r.trig) ||
        (decide ((0 : Int) < r.delta) && decide (r.delta ≤ 4)))) = true := by
  decide

/-! ## Claim C8 -/

/-- Counterexample for claim C8: the corpus "houseplant" contains an
explicit-indoor phrase, yet the trait extractor does not emit a `houseplant`
trait — no trait rule produces one. -/
theorem C8_counterexample :
    isExplicitIndoor "houseplant" = true ∧
      ((extractTraits "houseplant").1.contains "houseplant") = false := by
  refine ⟨by decide, by decide⟩

/-- Claim C8 as amended: the trait extractor never emits a `houseplant`
trait for any corpus; the narrow explicit-indoor phrases are instead consumed
by `_is_explicit_indoor`, which drives the houseplant *score* (+10 bonus
versus the -6 penalty) and the conditional fallback, not the trait list. -/
theorem C8_no_houseplant_trait (c : String) :
    ((extractTraits c).1.contains "houseplant") = false := by
  cases hb : (extractTraits c).1.contains "houseplant" with
  | false => rfl
  | true =>
    exfalso
    have hmem : "houseplant" ∈ (extractTraits c).1 := by simpa using hb
    obtain ⟨r, hr, hr2⟩ := extractTraits_subset c _ hmem
    have hall : ∀ r ∈ TRAIT_RULES, ¬(r.2 = "houseplant") := by decide
    exact hall r hr hr2

/-! ## Claim C9 -/

/-- Counterexample for claim C9: for the corpus
"cactaceae desert arid xeric" the extracted trait list does *not* contain
`xerophyte` ("xeric"/"arid" are keywords of the desert score rule and of the
`drought_tolerant` trait rule; the `xerophyte` trait rule only fires on
"xerophyte"/"xerophytic"). -/
theorem C9_counterexample :
    ((inferPrimaryAndTraits "cactaceae desert arid xeric").2.1.contains
        "xerophyte") = false := by
  decide

/-- Claim C9 as amended: for the corpus "cactaceae desert arid xeric" the
extracted traits are exactly `[cactus, drought_tolerant]` (no `xerophyte`),
the winning category is `desert`, and the derived moisture target lies
strictly below the midpoint of the unmodified `desert` base band. -/
theorem C9_desert_scenario :
    (inferPrimaryAndTraits "cactaceae desert arid xeric").1 = "desert" ∧
      (inferPrimaryAndTraits "cactaceae desert arid xeric").2.1 =
        ["cactus", "drought_tolerant"] ∧
      (compute_moisture (inferPrimaryAndTraits "cactaceae desert arid xeric").1
          (inferPrimaryAndTraits "cactaceae desert arid xeric").2.1).target <
        midpoint (lookup2 PRIMARY_MOISTURE_BASE "desert" DEFAULT_RANGE).1
          (lookup2 PRIMARY_MOISTURE_BASE "desert" DEFAULT_RANGE).2 := by
  refine ⟨by decide, by decide, by decide⟩

end ArduRain
